import Mathlib

/-!
Shallow embedding of `packages/feathers-pouchdb/src/PouchAdapter.ts`.

The adapter wraps a revision-checked document store (PouchDB).  Documents are
JSON objects with an `_id` string, a `_rev` revision token and open fields; we
model the open fields as an association list of string pairs and the revision
token as a natural number (PouchDB revisions are opaque strings bumped on each
write; only equality and freshness matter here).  Async methods are embedded as
pure functions threading the store state explicitly; a `Promise` value that the
source forgets to `await` is modelled at its use site (see `promiseMerge`).
-/

/-- Open field mapping of a document (`{...fields}` in the source). -/
abbrev Fields := List (String × String)

/-- A document: `_id`, optional `_rev`, and its open fields.
A document stored in the database always has `rev = some n`. -/
structure Doc where
  id : String
  rev : Option Nat
  fields : Fields
deriving Repr, DecidableEq

/-- The document store contents (one PouchDB database). -/
abbrev Store := List Doc

/-- Errors raised by the PouchDB client itself. -/
inductive StoreErr
  /-- 409 conflict: the supplied `_rev` does not match the stored revision. -/
  | conflict
  /-- `put` of a document without an `_id`. -/
  | missingId
  /-- `remove` of a document that is not in the store. -/
  | missingDoc
deriving Repr, DecidableEq

/-- Field lookup in a document body. -/
def fieldsGet (fs : Fields) (k : String) : Option String :=
  match fs with
  | [] => none
  | (k2, v) :: rest => if k2 = k then some v else fieldsGet rest k

/-- `client.get(id)`: first stored document with the given id. -/
def getDoc (s : Store) (id : String) : Option Doc :=
  match s with
  | [] => none
  | d :: rest => if d.id = id then some d else getDoc rest id

/-- Replace the stored document with id `d.id` by `d`. -/
def replaceDoc (s : Store) (d : Doc) : Store :=
  match s with
  | [] => []
  | e :: rest => if e.id = d.id then d :: rest else e :: replaceDoc rest d

/-- Delete every stored document with the given id. -/
def deleteDoc (s : Store) (id : String) : Store :=
  match s with
  | [] => []
  | e :: rest => if e.id = id then deleteDoc rest id else e :: deleteDoc rest id

/-- `client.put(doc)`: revision-checked write addressed by `doc.id`.
A write over an existing document requires the supplied `_rev` to equal the
stored one and bumps it; a write of a fresh id requires no `_rev`; a document
without `_id` is rejected.  Returns the new store and the written id. -/
def putDoc (s : Store) (d : Doc) : Except StoreErr (Store × String) :=
  if d.id = "" then .error .missingId
  else
    match getDoc s d.id with
    | some cur =>
      if d.rev = cur.rev then
        .ok (replaceDoc s { d with rev := some (cur.rev.getD 0 + 1) }, d.id)
      else .error .conflict
    | none =>
      match d.rev with
      | none => .ok (s ++ [{ d with rev := some 1 }], d.id)
      | some _ => .error .conflict

/-- `client.post(doc)`: assigns a fresh id then stores the document.  PouchDB
draws a UUID; the model draws a deterministic name from the store size (the
claims never depend on the id scheme, only on the re-`get` by that id). -/
def postDoc (s : Store) (d : Doc) : Except StoreErr (Store × String) :=
  putDoc s { d with id := "gen-" ++ toString s.length, rev := none }

/-- `client.remove(doc)`: revision-checked delete of `doc.id`. -/
def removeDoc (s : Store) (d : Doc) : Except StoreErr Store :=
  match getDoc s d.id with
  | some cur =>
    if d.rev = cur.rev then .ok (deleteDoc s d.id) else .error .conflict
  | none => .error .missingDoc

/-- A selector, opaque to the adapter beyond being forwarded to the store.  The
model fixes the simplest concrete query capability: a conjunction of
field-equality conditions (the claims treat the selector as opaque). -/
abbrev Selector := List (String × String)

/-- Whether a document matches every condition of a selector. -/
def selMatches (sel : Selector) (d : Doc) : Bool :=
  match sel with
  | [] => true
  | (k, v) :: rest =>
    match fieldsGet d.fields k with
    | some w => if w = v then selMatches rest d else false
    | none => false

/-- `client.find({selector, limit, skip})`: matching documents, after `skip`,
at most `limit` when one is set.  An unset `skip` behaves as 0 (PouchDB
default), which is also what the source produces since it only sets
`options.skip` when `filters.$skip` is truthy. -/
def findDocs (s : Store) (sel : Selector) (skip : Nat) (limit : Option Nat) : List Doc :=
  let m := (s.filter (selMatches sel)).drop skip
  match limit with
  | some l => m.take l
  | none => m

/-- Whether an id string carries the reserved system prefix, i.e. starts with
the underscore character (`doc._id.startsWith('_')` in the source). -/
def sysPrefixed (s : String) : Bool :=
  match s.data with
  | [] => false
  | c :: _ => c = '_'

/-! ## Adapter options and parameters -/

/-- The `multi` service option: a boolean, or the list of method names allowed
to run in bulk form.  `allowsMulti` below follows the interface the spec gives
for the generic adapter base (section 6: boolean or list of operation names). -/
inductive MultiSetting
  | enabled (b : Bool)
  | whitelist (ms : List String)
deriving Repr, DecidableEq

/-- String membership in a list (plain equality). -/
def listHasStr (l : List String) (x : String) : Bool :=
  match l with
  | [] => false
  | y :: rest => if y = x then true else listHasStr rest x

/-- `this.allowsMulti(method)` from the adapter base class. -/
def allowsMulti (m : MultiSetting) (method : String) : Bool :=
  match m with
  | .enabled b => b
  | .whitelist ms => listHasStr ms method

/-- Adapter instance state: the store handle (`this.client`, absent until
`setup` ran) and the `multi` option. -/
structure Adapter where
  client : Option Store
  multi : MultiSetting
deriving Repr, DecidableEq

/-- Errors surfaced by the adapter facade. -/
inductive Err
  /-- `$ready`: `PouchError` because `this.client` is not initialized. -/
  | notInitialized
  /-- `$update`: `NotFound` because no id was provided. -/
  | noId
  /-- `NotFound` for the given id. -/
  | notFound (id : String)
  /-- a store error caught and wrapped as `PouchError(msg, cause)`. -/
  | wrapped (msg : String) (cause : StoreErr)
  /-- a store error that propagates uncaught (no try/catch at the call). -/
  | store (cause : StoreErr)
deriving Repr, DecidableEq

/-- Pagination policy: `{default, max}`. -/
structure Pagination where
  default : Nat
  max : Nat
deriving Repr, DecidableEq

/-- The reserved query directives extracted from the raw query
(`$limit`, `$skip`; `$sort` and `$select` are opaque to the claims). -/
structure FindFilters where
  limit : Option Nat
  skip : Option Nat
deriving Repr, DecidableEq

/-- Parameters of a find, as produced by the parameter-splitting helper: the
raw query is split into the reserved directives and the selector, and the
pagination policy is resolved (`none` means pagination disabled for the call).
Modelled after spec section 4.4: directives are the reserved keys, everything
else forms the selector. -/
structure FindParams where
  filters : FindFilters
  selector : Selector
  paginate : Option Pagination
deriving Repr, DecidableEq

/-- The paginated envelope `{total, limit, skip, data}` built by `$find`. -/
structure Page where
  total : Nat
  limit : Option Nat
  skip : Nat
  data : List Doc
deriving Repr, DecidableEq

/-- Result of `$find`: an envelope, or the raw sequence when pagination is
disabled for the call. -/
inductive FindResult
  | page (p : Page)
  | raw (docs : List Doc)
deriving Repr, DecidableEq

/-- The documents carried by a find result. -/
def FindResult.docs : FindResult → List Doc
  | .page p => p.data
  | .raw ds => ds

/-- Result of an operation that returns one document or a bulk sequence. -/
inductive CrudOut
  | one (d : Doc)
  | many (ds : List Doc)
deriving Repr, DecidableEq

/-- Input that is a single document or an array of documents. -/
inductive BulkData
  | one (d : Doc)
  | many (ds : List Doc)
deriving Repr, DecidableEq

/-- JS truthiness of a nullable id (`!id` is true for `null` and `""`). -/
def idTruthy : Option String → Bool
  | none => false
  | some s => if s = "" then false else true

/-- `String(id)` applied to a nullable id (JS stringifies `null` to "null"). -/
def idString : Option String → String
  | none => "null"
  | some s => s

/-! ## CRUD facade -/

/-- `filterDocs`: drop documents whose id carries the reserved prefix. -/
def filterDocs (docs : List Doc) : List Doc :=
  docs.filter (fun d => !sysPrefixed d.id)

/-- The limit `$find` passes to the store when pagination is enabled:
`options.limit = filters?.$limit || paginate.default`, then
`if (options.limit > paginate.max) options.limit = paginate.max`.
The `||` makes a requested limit of 0 fall back to the default. -/
def effectiveLimit (pag : Pagination) (l : Option Nat) : Nat :=
  let l0 := match l with
    | some n => if n = 0 then pag.default else n
    | none => pag.default
  if l0 > pag.max then pag.max else l0

/-- `$find`: readiness gate, build find options (limit only when paginated,
skip when truthy), query the store, filter reserved-prefix docs, then return
the raw data when pagination is disabled or the `{total, limit, skip, data}`
envelope otherwise.  `results.total` is initialized to 0 and never assigned
again in the source. -/
def findOp (a : Adapter) (p : FindParams) : Except Err FindResult :=
  match a.client with
  | none => .error .notInitialized
  | some s =>
    let lim : Option Nat := match p.paginate with
      | some pag => some (effectiveLimit pag p.filters.limit)
      | none => none
    let data := filterDocs (findDocs s p.selector (p.filters.skip.getD 0) lim)
    match p.paginate with
    | none => .ok (.raw data)
    | some _ =>
      .ok (.page { total := 0, limit := p.filters.limit,
                   skip := p.filters.skip.getD 0, data := data })

/-- `$get`: readiness gate, then `client.get(String(id))`; a missing document
is a `NotFound`.  No reserved-prefix filtering happens here. -/
def getOp (a : Adapter) (id : String) : Except Err Doc :=
  match a.client with
  | none => .error .notInitialized
  | some s =>
    match getDoc s id with
    | some d => .ok d
    | none => .error (.notFound id)

/-- Single-document path of `$put`: `client.put` (errors wrapped as
`PouchError`), then re-`get` the written id (the re-get happens via a returned
promise, so its rejection is not caught by the surrounding try). -/
def putOne (a : Adapter) (d : Doc) : Except Err (Doc × Store) :=
  match a.client with
  | none => .error .notInitialized
  | some s =>
    match putDoc s d with
    | .error e => .error (.wrapped "Failed to put document" e)
    | .ok (s2, wid) =>
      match getDoc s2 wid with
      | some r => .ok (r, s2)
      | none => .error (.notFound wid)

/-- Bulk fan-out of `$put` (`Promise.all` over the elements; the model threads
the store through the sub-writes in input order, and fails on the first
rejection as `Promise.all` does). -/
def putMany (mu : MultiSetting) (s : Store) (ds : List Doc) : Except Err (List Doc × Store) :=
  match ds with
  | [] => .ok ([], s)
  | d :: rest =>
    match putOne ⟨some s, mu⟩ d with
    | .error e => .error e
    | .ok (r, s2) =>
      match putMany mu s2 rest with
      | .error e => .error e
      | .ok (rs, s3) => .ok (r :: rs, s3)

/-- `$put`: readiness gate; an array input fans out when `multi` allows `put`,
otherwise the array itself reaches `client.put`, which rejects it for lacking
an `_id`. -/
def putOp (a : Adapter) (data : BulkData) : Except Err (CrudOut × Store) :=
  match a.client with
  | none => .error .notInitialized
  | some s =>
    match data with
    | .many ds =>
      if allowsMulti a.multi "put" then
        match putMany a.multi s ds with
        | .error e => .error e
        | .ok (rs, s2) => .ok (.many rs, s2)
      else .error (.wrapped "Failed to put document" .missingId)
    | .one d =>
      match putOne a d with
      | .error e => .error e
      | .ok (r, s2) => .ok (.one r, s2)

/-- Single-document path of `$create`: `client.post` (errors wrapped), then
re-`get` the assigned id. -/
def createOne (a : Adapter) (d : Doc) : Except Err (Doc × Store) :=
  match a.client with
  | none => .error .notInitialized
  | some s =>
    match postDoc s d with
    | .error e => .error (.wrapped "Failed to create document" e)
    | .ok (s2, wid) =>
      match getDoc s2 wid with
      | some r => .ok (r, s2)
      | none => .error (.notFound wid)

/-- Bulk fan-out of `$create`. -/
def createMany (mu : MultiSetting) (s : Store) (ds : List Doc) : Except Err (List Doc × Store) :=
  match ds with
  | [] => .ok ([], s)
  | d :: rest =>
    match createOne ⟨some s, mu⟩ d with
    | .error e => .error e
    | .ok (r, s2) =>
      match createMany mu s2 rest with
      | .error e => .error e
      | .ok (rs, s3) => .ok (r :: rs, s3)

/-- `$create`: readiness gate; array input fans out when `multi` allows
`create`, otherwise the array reaches `client.post` and is rejected. -/
def createOp (a : Adapter) (data : BulkData) : Except Err (CrudOut × Store) :=
  match a.client with
  | none => .error .notInitialized
  | some s =>
    match data with
    | .many ds =>
      if allowsMulti a.multi "create" then
        match createMany a.multi s ds with
        | .error e => .error e
        | .ok (rs, s2) => .ok (.many rs, s2)
      else .error (.wrapped "Failed to create document" .missingId)
    | .one d =>
      match createOne a d with
      | .error e => .error e
      | .ok (r, s2) => .ok (.one r, s2)

/-- `$update(id, data)`: readiness gate; a falsy id is a `NotFound`; fetch the
current document at `id` to obtain its revision, overwrite `data._rev` with
it, write via `client.put` (which addresses the write by `data._id`; its error
propagates uncaught here), then return the fresh `$get(data._id)`. -/
def updateOp (a : Adapter) (id : Option String) (data : Doc) : Except Err (Doc × Store) :=
  match a.client with
  | none => .error .notInitialized
  | some s =>
    if idTruthy id then
      match getDoc s (idString id) with
      | none => .error (.notFound (idString id))
      | some current =>
        match putDoc s { data with rev := current.rev } with
        | .error e => .error (.store e)
        | .ok (s2, _) =>
          match getDoc s2 data.id with
          | some d => .ok (d, s2)
          | none => .error (.notFound data.id)
    else .error .noId

/-- In `$patch`, `old_data` is bound to the promise returned by `$get(id)`
without `await`; a pending promise has no own enumerable properties, so
`merge(old_data, data)` contributes nothing from the current document and
yields exactly the fields of `data` — or the empty object when the fan-out of
`$multi` supplies no `data` argument at all. -/
def promiseMerge (data : Option Doc) : Doc :=
  data.getD ⟨"", none, []⟩

/-- The non-multi path of `$patch(id, data)`: merge (see `promiseMerge`) and
delegate to `$update(id, new_data)`. -/
def patchSingle (a : Adapter) (id : Option String) (data : Option Doc) : Except Err (Doc × Store) :=
  match a.client with
  | none => .error .notInitialized
  | some _ => updateOp a id (promiseMerge data)

/-- The non-multi path of `$remove(id)`: `$get(id)` (stringifying a null id),
then `client.remove(doc)` with the freshly fetched document (its error
propagates uncaught), returning the document as it was before deletion. -/
def removeSingle (a : Adapter) (id : Option String) : Except Err (Doc × Store) :=
  match a.client with
  | none => .error .notInitialized
  | some s =>
    match getDoc s (idString id) with
    | none => .error (.notFound (idString id))
    | some d =>
      match removeDoc s d with
      | .error e => .error (.store e)
      | .ok s2 => .ok (d, s2)

/-- The operation name `$multi` dispatches on (`'$patch'` or `'$remove'`). -/
inductive MultiMethod
  | patch
  | remove
deriving Repr, DecidableEq

/-- One fan-out step of `$multi`: `this[method](item[this.id])` — the method
is invoked with the matched id as its ONLY argument.  For `$patch` the `data`
parameter is therefore `undefined` (modelled as `none`) and the recursive call
takes the single path (its own query is empty, so `isMulti` is false); for
`$remove` the id is truthy, so it takes the single path as well. -/
def multiStep (mu : MultiSetting) (m : MultiMethod) (s : Store) (docId : String) : Except Err (Doc × Store) :=
  match m with
  | .patch => patchSingle ⟨some s, mu⟩ (some docId) none
  | .remove => removeSingle ⟨some s, mu⟩ (some docId)

/-- `Promise.all` over the fan-out steps: the model threads the store through
the sub-operations in resolution order and fails on the first rejection. -/
def multiFold (mu : MultiSetting) (m : MultiMethod) (s : Store) (ids : List String) : Except Err (List Doc × Store) :=
  match ids with
  | [] => .ok ([], s)
  | i :: rest =>
    match multiStep mu m s i with
    | .error e => .error e
    | .ok (d, s2) =>
      match multiFold mu m s2 rest with
      | .error e => .error e
      | .ok (ds, s3) => .ok (d :: ds, s3)

/-- `$multi(method, params)`: resolve the target documents with a
non-paginated `$find` on the same params, then fan out `this[method]` over the
matched ids (passing only the id, see `multiStep`). -/
def multiOp (a : Adapter) (m : MultiMethod) (filters : FindFilters) (sel : Selector) : Except Err (List Doc × Store) :=
  match findOp a { filters := filters, selector := sel, paginate := none } with
  | .error e => .error e
  | .ok r =>
    match a.client with
    | none => .error .notInitialized
    | some s => multiFold a.multi m s (r.docs.map Doc.id)

/-- `isMulti(id, params)`: a falsy id together with a non-empty query selects
the multi path. -/
def isMulti (id : Option String) (sel : Selector) : Bool :=
  if idTruthy id then false else !sel.isEmpty

/-- `$patch(id, data, params)`: readiness gate; on the multi path fan out via
`$multi('$patch', params)` (the partial document is not forwarded there);
otherwise merge and delegate to `$update` (see `patchSingle`). -/
def patchOp (a : Adapter) (id : Option String) (data : Option Doc)
    (filters : FindFilters) (sel : Selector) : Except Err (CrudOut × Store) :=
  match a.client with
  | none => .error .notInitialized
  | some _ =>
    if isMulti id sel then
      match multiOp a .patch filters sel with
      | .error e => .error e
      | .ok (ds, s2) => .ok (.many ds, s2)
    else
      match patchSingle a id data with
      | .error e => .error e
      | .ok (d, s2) => .ok (.one d, s2)

/-- `$remove(id, params)`: readiness gate; a falsy id with `multi` allowing
`remove` fans out via `$multi('$remove', params)`; otherwise the single path. -/
def removeOp (a : Adapter) (id : Option String)
    (filters : FindFilters) (sel : Selector) : Except Err (CrudOut × Store) :=
  match a.client with
  | none => .error .notInitialized
  | some _ =>
    if !idTruthy id && allowsMulti a.multi "remove" then
      match multiOp a .remove filters sel with
      | .error e => .error e
      | .ok (ds, s2) => .ok (.many ds, s2)
    else
      match removeSingle a id with
      | .error e => .error e
      | .ok (d, s2) => .ok (.one d, s2)

/-! ## Encryption gateway and setup -/

/-- The `encrypt` option: `false` / `true` / `'local'` / `'remote'` /
`'full'`.  `.on` stands for the boolean `true`. -/
inductive EncryptMode
  | off
  | on
  | local
  | remote
  | full
deriving Repr, DecidableEq

/-- The one-shot key-delivery channel (`app.on('decrypt', ...)`): it fires at
most once with a key payload, or never fires. -/
inductive KeyEvent
  | fires (key : String)
  | never
deriving Repr, DecidableEq

/-- How the promise returned by `encryptionReady` settles: still pending (the
channel never fired), rejected with a message, or resolved — `resolved none`
models the literal `false` returned when encryption is off, `resolved (some
k)` a resolved key. -/
inductive EncOutcome
  | pending
  | rejected (msg : String)
  | resolved (key : Option String)
deriving Repr, DecidableEq

/-- Result of `encryptionReady`: whether the adapter subscribed to the
key-delivery channel, and how its promise settles. -/
structure EncReady where
  subscribed : Bool
  outcome : EncOutcome
deriving Repr, DecidableEq

/-- `encryptionReady(app)`: resolves `false` when encryption is off; resolves
synchronously with the static key when one is configured (truthy); otherwise
subscribes once to the key-delivery channel and settles with the delivered
key, rejecting when the delivered value is falsy. -/
def encryptionReady (mode : EncryptMode) (staticKey : Option String) (ev : KeyEvent) : EncReady :=
  if mode = .off then { subscribed := false, outcome := .resolved none }
  else if idTruthy staticKey then { subscribed := false, outcome := .resolved staticKey }
  else
    match ev with
    | .fires k =>
      if k = "" then { subscribed := true, outcome := .rejected "Encryption key is invalid" }
      else { subscribed := true, outcome := .resolved (some k) }
    | .never => { subscribed := true, outcome := .pending }

/-- Which store handle replication reads from. -/
inductive Handle
  | plain
  | encrypted
deriving Repr, DecidableEq

/-- Outcome of the encryption part of `setup`. -/
inductive SetupOutcome
  /-- the key wait never settles: setup stays pending forever. -/
  | pending
  /-- `PouchError(msg, cause)` aborts setup. -/
  | failed (msg : String) (cause : String)
  /-- setup completed: the fixed `replicateFrom` handle, and whether
  `loadEncrypted` ran. -/
  | ready (replicateFrom : Handle) (loadedEncrypted : Bool)
deriving Repr, DecidableEq

/-- The `setup` sequence from `let replicateFrom = this.client` through the
encryption block: when `encrypt` is falsy the plain handle stays; otherwise
await `encryptionReady` (failures wrapped as a `PouchError` that aborts
setup), and on a truthy key set the password, load previously persisted
encrypted content only for `encrypt === true || encrypt === 'remote'`, and fix
`replicateFrom` to the encrypted variant.  The handle is a local value chosen
once; replication starts from it and nothing reassigns it. -/
def setupReplicateFrom (mode : EncryptMode) (staticKey : Option String) (ev : KeyEvent) : SetupOutcome :=
  if mode = .off then .ready .plain false
  else
    match (encryptionReady mode staticKey ev).outcome with
    | .pending => .pending
    | .rejected e => .failed "Failed to initialize encryption" e
    | .resolved k =>
      match k with
      | some _ => .ready .encrypted (decide (mode = EncryptMode.on) || decide (mode = EncryptMode.remote))
      | none => .ready .plain false

/-! ## Claim-side definitions (worded from the spec, for comparison) -/

/-- The effective limit as the claim words it: the requested `$limit` when one
is given, otherwise the policy default, clamped to the policy max. -/
def claimedLimit (pag : Pagination) (l : Option Nat) : Nat :=
  min (l.getD pag.default) pag.max

/-- The patch merge as the claim words it: shallow-merge the partial into the
current document, preserving the current revision (the partial wins on key
conflicts, keys unique to either side survive). -/
def claimedPatchMerge (cur part : Doc) : Doc :=
  { id := cur.id, rev := cur.rev,
    fields := cur.fields.filter (fun kv => (fieldsGet part.fields kv.1).isNone)
                ++ part.fields }

/-! ## Helper lemmas -/

/-- A document retrieved by id has that id. -/
theorem getDoc_id {s : Store} {j : String} {d : Doc} (h : getDoc s j = some d) :
    d.id = j := by
  induction s with
  | nil => simp [getDoc] at h
  | cons e rest ih =>
    by_cases he : e.id = j
    · simp [getDoc, he] at h
      rw [← h]
      exact he
    · simp [getDoc, he] at h
      exact ih h

/-- Replacing the document with one id leaves lookups of other ids unchanged. -/
theorem getDoc_replaceDoc_ne {s : Store} {e : Doc} {j : String} (h : j ≠ e.id) :
    getDoc (replaceDoc s e) j = getDoc s j := by
  induction s with
  | nil => simp [replaceDoc]
  | cons x rest ih =>
    by_cases hx : x.id = e.id
    · simp only [replaceDoc, if_pos hx, getDoc]
      rw [if_neg (fun hje => h hje.symm), if_neg (by rw [hx]; exact fun hje => h hje.symm)]
    · simp only [replaceDoc, if_neg hx, getDoc]
      by_cases hxj : x.id = j
      · rw [if_pos hxj, if_pos hxj]
      · rw [if_neg hxj, if_neg hxj]
        exact ih

/-- Appending a document with a different id leaves a lookup unchanged. -/
theorem getDoc_append_ne {s : Store} {x : Doc} {j : String} (h : j ≠ x.id) :
    getDoc (s ++ [x]) j = getDoc s j := by
  induction s with
  | nil =>
    simp only [List.nil_append, getDoc]
    rw [if_neg (fun hje => h hje.symm)]
  | cons e rest ih =>
    simp only [List.cons_append, getDoc]
    by_cases he : e.id = j
    · rw [if_pos he, if_pos he]
    · rw [if_neg he, if_neg he]
      exact ih

/-- A successful `client.put` only changes the entry at the written id. -/
theorem putDoc_frame {s s2 : Store} {d : Doc} {wid : String}
    (h : putDoc s d = .ok (s2, wid)) {j : String} (hj : j ≠ d.id) :
    getDoc s2 j = getDoc s j := by
  unfold putDoc at h
  by_cases hid : d.id = ""
  · simp [hid] at h
  · rw [if_neg hid] at h
    cases hcur : getDoc s d.id with
    | some cur =>
      rw [hcur] at h
      dsimp only at h
      by_cases hrev : d.rev = cur.rev
      · rw [if_pos hrev] at h
        cases h
        exact getDoc_replaceDoc_ne hj
      · rw [if_neg hrev] at h
        cases h
    | none =>
      rw [hcur] at h
      dsimp only at h
      cases hrev : d.rev with
      | none =>
        rw [hrev] at h
        dsimp only at h
        cases h
        exact getDoc_append_ne hj
      | some r =>
        rw [hrev] at h
        dsimp only at h
        cases h

/-- Membership in a filtered result implies the id is not reserved. -/
theorem mem_filterDocs {d : Doc} {ds : List Doc} (h : d ∈ filterDocs ds) :
    sysPrefixed d.id = false := by
  have hp := List.of_mem_filter h
  simpa using hp

/-! ## Claims -/

/-- C7: every public operation (find, get, create, put, update, patch,
remove) invoked while the store handle is uninitialized fails immediately
with the not-initialized error and performs no store access. -/
theorem C7_readiness_gate :
    ∀ (mu : MultiSetting) (p : FindParams) (gid : String) (bd : BulkData)
      (id : Option String) (d : Doc) (pd : Option Doc) (fl : FindFilters) (sel : Selector),
    findOp ⟨none, mu⟩ p = .error .notInitialized
    ∧ getOp ⟨none, mu⟩ gid = .error .notInitialized
    ∧ createOp ⟨none, mu⟩ bd = .error .notInitialized
    ∧ putOp ⟨none, mu⟩ bd = .error .notInitialized
    ∧ updateOp ⟨none, mu⟩ id d = .error .notInitialized
    ∧ patchOp ⟨none, mu⟩ id pd fl sel = .error .notInitialized
    ∧ removeOp ⟨none, mu⟩ id fl sel = .error .notInitialized := by
  intro mu p gid bd id d pd fl sel
  exact ⟨rfl, rfl, rfl, rfl, rfl, rfl, rfl⟩

/-- C1 (amended): `$update` never reads the caller-supplied revision — it
overwrites `data._rev` with the store's current revision before writing, so
the outcome is the same for every supplied revision token (and `$remove` takes
no revision at all, deleting at the freshly fetched current revision). -/
theorem C1_supplied_revision_ignored :
    ∀ (a : Adapter) (id : Option String) (data : Doc) (r : Option Nat),
    updateOp a id data = updateOp a id { data with rev := r } := by
  intro a id data r
  cases data
  rfl

/-- C1 counterexample: updating with a stale revision token (stored revision
is 2, supplied is 1) does not fail as a conflict — it succeeds and mutates the
stored document. -/
theorem C1_counterexample :
    updateOp ⟨some [⟨"a", some 2, [("v", "1")]⟩], .enabled false⟩ (some "a")
        ⟨"a", some 1, [("v", "9")]⟩
      = .ok (⟨"a", some 3, [("v", "9")]⟩, [⟨"a", some 3, [("v", "9")]⟩])
    ∧ getDoc [⟨"a", some 3, [("v", "9")]⟩] "a" ≠ getDoc [⟨"a", some 2, [("v", "1")]⟩] "a" := by
  exact ⟨rfl, by decide⟩

/-- C3 (amended): every document returned by `$find` — paginated or raw — has
an id free of the reserved system prefix; `$get` (and the operations that
return documents through it) does not apply this filter. -/
theorem C3_find_filters_reserved :
    ∀ (a : Adapter) (p : FindParams) (r : FindResult) (d : Doc),
    findOp a p = .ok r → d ∈ r.docs → sysPrefixed d.id = false := by
  intro a p r d hfind hmem
  obtain ⟨cl, mu⟩ := a
  cases cl with
  | none => simp [findOp] at hfind
  | some s =>
    cases hp : p.paginate with
    | none =>
      simp only [findOp, hp] at hfind
      cases hfind
      exact mem_filterDocs hmem
    | some pag =>
      simp only [findOp, hp] at hfind
      cases hfind
      exact mem_filterDocs hmem

/-- C3 witness: a concrete paginated-off find over a store holding a reserved
document returns only the plain document, whose id is unreserved. -/
theorem C3_find_filters_reserved_witness :
    sysPrefixed (Doc.mk "a" (some 1) []).id = false :=
  C3_find_filters_reserved ⟨some [⟨"_sys", some 1, []⟩, ⟨"a", some 1, []⟩], .enabled false⟩
    ⟨⟨none, none⟩, [], none⟩ (.raw [⟨"a", some 1, []⟩]) ⟨"a", some 1, []⟩ rfl (by decide)

/-- C3 counterexample: `$get` addressed at a reserved id returns the reserved
document — the claim that no operation observes a reserved-prefix document
fails for `get`. -/
theorem C3_counterexample :
    getOp ⟨some [⟨"_sys", some 1, []⟩], .enabled false⟩ "_sys" = .ok ⟨"_sys", some 1, []⟩
    ∧ sysPrefixed "_sys" = true := by
  exact ⟨rfl, by decide⟩

/-- C4 (amended): with pagination enabled the limit handed to the store is the
requested `$limit` when a nonzero one is given, clamped to the policy max; a
requested `$limit` of 0 is falsy in the source (`||`) and falls back to the
policy default, as does an absent `$limit`; in particular policy
`{default := 10, max := 25}` with `$limit = 100` yields 25. -/
theorem C4_effective_limit :
    ∀ (pag : Pagination) (l : Nat),
    (l ≠ 0 → effectiveLimit pag (some l) = min l pag.max)
    ∧ effectiveLimit pag (some 0) = min pag.default pag.max
    ∧ effectiveLimit pag none = min pag.default pag.max
    ∧ effectiveLimit ⟨10, 25⟩ (some 100) = 25 := by
  intro pag l
  refine ⟨?_, ?_, ?_, by decide⟩
  · intro hl
    simp only [effectiveLimit, if_neg hl]
    split <;> omega
  · have h0 : effectiveLimit pag (some 0)
        = if pag.default > pag.max then pag.max else pag.default := rfl
    rw [h0]
    split <;> omega
  · have h1 : effectiveLimit pag none
        = if pag.default > pag.max then pag.max else pag.default := rfl
    rw [h1]
    split <;> omega

/-- C4 witness: a nonzero requested limit below the max is used as-is. -/
theorem C4_effective_limit_witness :
    effectiveLimit ⟨10, 25⟩ (some 7) = min 7 25 :=
  (C4_effective_limit ⟨10, 25⟩ 7).1 (by decide)

/-- C4 counterexample: the claim computes the effective limit as the requested
value (when given) clamped to max; at a requested `$limit` of 0 under policy
`{default := 10, max := 25}` the code yields 10 while the claim demands 0. -/
theorem C4_counterexample :
    effectiveLimit ⟨10, 25⟩ (some 0) = 10
    ∧ claimedLimit ⟨10, 25⟩ (some 0) = 0
    ∧ effectiveLimit ⟨10, 25⟩ (some 0) ≠ claimedLimit ⟨10, 25⟩ (some 0) := by
  decide

/-- C5 (amended): a paginated `$find` always returns the envelope
`{total, limit, skip, data}` with `total = 0` — `results.total` is initialized
to 0 and never assigned from the returned data. -/
theorem C5_total_always_zero :
    ∀ (a : Adapter) (p : FindParams) (pg : Page),
    findOp a p = .ok (.page pg) → pg.total = 0 := by
  intro a p pg h
  obtain ⟨cl, mu⟩ := a
  cases cl with
  | none => simp [findOp] at h
  | some s =>
    cases hp : p.paginate with
    | none => simp [findOp, hp] at h
    | some pag =>
      simp only [findOp, hp] at h
      cases h
      rfl

/-- C5 witness: the envelope of a concrete paginated find has `total = 0`. -/
theorem C5_total_always_zero_witness :
    (Page.mk 0 none 0 [⟨"a", some 1, []⟩]).total = 0 :=
  C5_total_always_zero ⟨some [⟨"a", some 1, []⟩], .enabled false⟩
    ⟨⟨none, none⟩, [], some ⟨10, 25⟩⟩ ⟨0, none, 0, [⟨"a", some 1, []⟩]⟩ rfl

/-- C5 counterexample: a paginated find that returns one document still
reports `total = 0`, so `total` does not equal the number of documents
actually returned. -/
theorem C5_counterexample :
    findOp ⟨some [⟨"a", some 1, []⟩], .enabled false⟩ ⟨⟨none, none⟩, [], some ⟨10, 25⟩⟩
      = .ok (.page ⟨0, none, 0, [⟨"a", some 1, []⟩]⟩)
    ∧ (0 : Nat) ≠ (List.length [Doc.mk "a" (some 1) []]) := by
  exact ⟨rfl, by decide⟩

/-- C2 (code bug): `$patch` binds `old_data` to the promise of `$get(id)`
without awaiting it, so the merge contributes nothing from the current
document.  At a concrete input, patching `{_id: a, x: 1}` with `{y: 2}` stores
and returns a document holding only `y` (first conjunct), while the claimed
`update(id, merge(get(id), partial))` keeps `x` as well (second conjunct);
the two results differ (third conjunct). -/
theorem C2_patch_drops_current_fields :
    patchOp ⟨some [⟨"a", some 1, [("x", "1")]⟩], .enabled false⟩ (some "a")
        (some ⟨"a", none, [("y", "2")]⟩) ⟨none, none⟩ []
      = .ok (.one ⟨"a", some 2, [("y", "2")]⟩, [⟨"a", some 2, [("y", "2")]⟩])
    ∧ updateOp ⟨some [⟨"a", some 1, [("x", "1")]⟩], .enabled false⟩ (some "a")
        (claimedPatchMerge ⟨"a", some 1, [("x", "1")]⟩ ⟨"a", none, [("y", "2")]⟩)
      = .ok (⟨"a", some 2, [("x", "1"), ("y", "2")]⟩, [⟨"a", some 2, [("x", "1"), ("y", "2")]⟩])
    ∧ (Doc.mk "a" (some 2) [("y", "2")]) ≠ ⟨"a", some 2, [("x", "1"), ("y", "2")]⟩ := by
  exact ⟨rfl, rfl, by decide⟩

/-- C8 (code bug): on the multi path `$multi` invokes `this[method]` with the
matched id as its only argument, so the partial document never reaches the
per-id `$patch` calls: each sub-call merges `undefined`, hands `$update` a
document with no `_id`, and the fan-out rejects with the store's missing-id
error instead of returning patched documents.  The second conjunct exhibits
the dropped argument: the fan-out step equals a `$patch` call whose `data` is
`none`. -/
theorem C8_multi_patch_drops_data :
    patchOp ⟨some [⟨"a", some 1, [("t", "1")]⟩, ⟨"b", some 1, [("t", "1")]⟩], .enabled true⟩
        none (some ⟨"", none, [("y", "2")]⟩) ⟨none, none⟩ [("t", "1")]
      = .error (.store .missingId)
    ∧ multiStep (.enabled true) .patch
        [⟨"a", some 1, [("t", "1")]⟩, ⟨"b", some 1, [("t", "1")]⟩] "a"
      = patchSingle ⟨some [⟨"a", some 1, [("t", "1")]⟩, ⟨"b", some 1, [("t", "1")]⟩], .enabled true⟩
          (some "a") none := by
  exact ⟨rfl, rfl⟩

/-- C6 (amended): once `setup` completes, `replicateFrom` is the encrypted
variant whenever encryption is enabled at all — including `local` mode, not
only `remote`/`full` — and the plain store exactly when encryption is
disabled.  The handle is a value fixed by `setup` (the model is a pure
function of the configuration and key event), so it never changes afterward. -/
theorem C6_replicate_from_handle :
    ∀ (mode : EncryptMode) (staticKey : Option String) (ev : KeyEvent) (h : Handle) (l : Bool),
    setupReplicateFrom mode staticKey ev = .ready h l →
    (h = .encrypted ↔ mode ≠ .off) := by
  intro mode k ev h l hs
  by_cases hm : mode = .off
  · subst hm
    simp only [setupReplicateFrom, if_pos rfl] at hs
    cases hs
    simp
  · simp only [setupReplicateFrom, encryptionReady, if_neg hm] at hs
    by_cases hk : idTruthy k
    · rw [if_pos hk] at hs
      cases k with
      | none => simp [idTruthy] at hk
      | some key =>
        dsimp only at hs
        cases hs
        simp [hm]
    · rw [if_neg hk] at hs
      cases ev with
      | never => dsimp only at hs; cases hs
      | fires key =>
        dsimp only at hs
        by_cases hke : key = ""
        · rw [if_pos hke] at hs
          dsimp only at hs
          cases hs
        · rw [if_neg hke] at hs
          dsimp only at hs
          cases hs
          simp [hm]

/-- C6 witness: in `remote` mode with a static key, setup fixes the encrypted
handle, and the characterization instantiates there. -/
theorem C6_replicate_from_handle_witness :
    Handle.encrypted = Handle.encrypted ↔ EncryptMode.remote ≠ EncryptMode.off :=
  C6_replicate_from_handle .remote (some "k") .never .encrypted true rfl

/-- C6 counterexample: in `local` mode with a static key the code fixes
`replicateFrom` to the encrypted variant, while the claim demands the plain
store there. -/
theorem C6_counterexample :
    setupReplicateFrom .local (some "k") .never = .ready .encrypted false
    ∧ Handle.encrypted ≠ Handle.plain := by
  exact ⟨rfl, by decide⟩

/-- C9: with encryption enabled, a configured (truthy) static key resolves
synchronously without subscribing to the key channel; without one the adapter
subscribes, a non-empty delivered key resolves, and a falsy delivered value
rejects with the invalid-key message, which `setup` wraps into the encryption
failure that aborts it. -/
theorem C9_encryption_key_resolution :
    ∀ (mode : EncryptMode) (k : String) (ev : KeyEvent), mode ≠ .off →
    (k ≠ "" → encryptionReady mode (some k) ev = ⟨false, .resolved (some k)⟩)
    ∧ (encryptionReady mode none ev).subscribed = true
    ∧ (k ≠ "" → encryptionReady mode none (.fires k) = ⟨true, .resolved (some k)⟩)
    ∧ encryptionReady mode none (.fires "") = ⟨true, .rejected "Encryption key is invalid"⟩
    ∧ setupReplicateFrom mode none (.fires "")
        = .failed "Failed to initialize encryption" "Encryption key is invalid" := by
  intro mode k ev hm
  refine ⟨?_, ?_, ?_, ?_, ?_⟩
  · intro hk
    simp only [encryptionReady, if_neg hm, idTruthy, if_neg hk]
    rfl
  · cases ev with
    | fires key =>
      by_cases hke : key = ""
      · simp [encryptionReady, if_neg hm, idTruthy, hke]
      · simp [encryptionReady, if_neg hm, idTruthy, hke]
    | never => simp [encryptionReady, if_neg hm, idTruthy]
  · intro hk
    simp only [encryptionReady, if_neg hm, idTruthy, if_neg hk]
    rfl
  · simp only [encryptionReady, if_neg hm, idTruthy]
    rfl
  · simp only [setupReplicateFrom, encryptionReady, if_neg hm, idTruthy]
    rfl

/-- C9 witness: instantiated at `remote` mode with the static key `"abc"` and,
dynamically, a delivered key `"abc"`. -/
theorem C9_encryption_key_resolution_witness :
    encryptionReady .remote (some "abc") .never = ⟨false, .resolved (some "abc")⟩
    ∧ encryptionReady .remote none (.fires "abc") = ⟨true, .resolved (some "abc")⟩
    ∧ setupReplicateFrom .remote none (.fires "")
        = .failed "Failed to initialize encryption" "Encryption key is invalid" := by
  have h := C9_encryption_key_resolution .remote "abc" .never (by decide)
  exact ⟨h.1 (by decide), h.2.2.1 (by decide), h.2.2.2.2⟩

/-- C10: `$update(id, data)` uses `id` only to fetch the current revision.
First part: on success the returned document carries `data._id` and no entry
other than the one at `data._id` changes — in particular, when `data._id`
differs from `id`, the document at `id` is untouched.  Second part: two calls
addressed at different ids whose stored documents hold the same revision give
identical results, so nothing of `id` beyond the fetched revision enters the
outcome. -/
theorem C10_update_addressed_by_data_id :
    (∀ (s : Store) (mu : MultiSetting) (id : Option String) (data d : Doc) (s2 : Store),
      updateOp ⟨some s, mu⟩ id data = .ok (d, s2) →
      d.id = data.id ∧ ∀ j, j ≠ data.id → getDoc s2 j = getDoc s j)
    ∧ (∀ (s : Store) (mu : MultiSetting) (id1 id2 : Option String) (data c1 c2 : Doc),
      idTruthy id1 = true → idTruthy id2 = true →
      getDoc s (idString id1) = some c1 → getDoc s (idString id2) = some c2 →
      c1.rev = c2.rev →
      updateOp ⟨some s, mu⟩ id1 data = updateOp ⟨some s, mu⟩ id2 data) := by
  constructor
  · intro s mu id data d s2 h
    simp only [updateOp] at h
    by_cases hid : idTruthy id
    · rw [if_pos hid] at h
      cases hcur : getDoc s (idString id) with
      | none => rw [hcur] at h; cases h
      | some current =>
        rw [hcur] at h
        dsimp only at h
        cases hput : putDoc s { data with rev := current.rev } with
        | error e => rw [hput] at h; cases h
        | ok p =>
          obtain ⟨s3, wid⟩ := p
          rw [hput] at h
          dsimp only at h
          cases hget : getDoc s3 data.id with
          | none => rw [hget] at h; cases h
          | some r =>
            rw [hget] at h
            dsimp only at h
            cases h
            refine ⟨getDoc_id hget, ?_⟩
            intro j hj
            exact putDoc_frame hput hj
    · rw [if_neg hid] at h
      cases h
  · intro s mu id1 id2 data c1 c2 h1 h2 hg1 hg2 hrev
    simp only [updateOp, h1, h2, if_pos, hg1, hg2]
    rw [hrev]

/-- C10 witness: a store holds `a` and `b` at the same revision; updating at
id `a` with a document whose `_id` is `b` writes and returns `b`, leaves `a`
untouched, and equals the same update addressed at id `b`. -/
theorem C10_update_addressed_by_data_id_witness :
    getDoc [⟨"a", some 1, [("p", "1")]⟩, ⟨"b", some 2, [("q", "2")]⟩] "a"
      = getDoc [⟨"a", some 1, [("p", "1")]⟩, ⟨"b", some 1, [("q", "1")]⟩] "a"
    ∧ updateOp ⟨some [⟨"a", some 1, [("p", "1")]⟩, ⟨"b", some 1, [("q", "1")]⟩], .enabled false⟩
        (some "a") ⟨"b", none, [("q", "2")]⟩
      = updateOp ⟨some [⟨"a", some 1, [("p", "1")]⟩, ⟨"b", some 1, [("q", "1")]⟩], .enabled false⟩
        (some "b") ⟨"b", none, [("q", "2")]⟩ := by
  constructor
  · exact (C10_update_addressed_by_data_id.1
      [⟨"a", some 1, [("p", "1")]⟩, ⟨"b", some 1, [("q", "1")]⟩] (.enabled false)
      (some "a") ⟨"b", none, [("q", "2")]⟩ ⟨"b", some 2, [("q", "2")]⟩
      [⟨"a", some 1, [("p", "1")]⟩, ⟨"b", some 2, [("q", "2")]⟩] rfl).2 "a" (by decide)
  · exact C10_update_addressed_by_data_id.2
      [⟨"a", some 1, [("p", "1")]⟩, ⟨"b", some 1, [("q", "1")]⟩] (.enabled false)
      (some "a") (some "b") ⟨"b", none, [("q", "2")]⟩
      ⟨"a", some 1, [("p", "1")]⟩ ⟨"b", some 1, [("q", "1")]⟩
      rfl rfl rfl rfl rfl
